import Mathlib

/-!
Verification of the directions-resolution subsystem of the Blindmate app
(`src/app.py`).  Python strings are modelled as Lean `String`s (operating on
their `.data` character lists); Python dictionaries coming from JSON are
modelled as structures whose optional keys are `Option` fields; Python `float`
values are modelled as exact rationals (`Rat`); the integral meter/second
values returned by the directions provider are modelled as `Nat`.  Network
effects are modelled by an explicit oracle (`Net`) plus a trace of the calls
issued (`List Call`).
-/

/-- Python default whitespace for `str.strip` (the ASCII whitespace
characters; the code only ever strips ASCII text). -/
def pyIsSpaceB (c : Char) : Bool :=
  c = ' ' || c = '\t' || c = '\n' || c = '\r' || c = '\x0b' || c = '\x0c'

/-- Python `str.strip()` on the character list: drop whitespace from both ends. -/
def pyStripL (l : List Char) : List Char :=
  ((l.dropWhile pyIsSpaceB).reverse.dropWhile pyIsSpaceB).reverse

/-- Python `str.strip()`. -/
def pyStrip (s : String) : String :=
  ⟨pyStripL s.data⟩

/-- Python `str.lower()` (ASCII case mapping; the tables in this code are all
ASCII). -/
def pyLower (s : String) : String :=
  ⟨s.data.map Char.toLower⟩

/-- One pass of Python `str.replace(old, new)` over a character list:
left-to-right, non-overlapping.  Structural recursion on a fuel argument
(callers pass the list length, which always suffices since every step
consumes at least one character); with fuel `0` the remainder is returned
unchanged.  All patterns used in `src/app.py` are non-empty, so the
empty-pattern behaviour of CPython (interleaving) is irrelevant here: an
empty pattern never matches `isPrefixOf` progress and simply copies. -/
def replListF (pat rep : List Char) : Nat → List Char → List Char
  | 0, l => l
  | _ + 1, [] => []
  | fuel + 1, c :: cs =>
    if !pat.isEmpty && pat.isPrefixOf (c :: cs) then
      rep ++ replListF pat rep fuel (List.drop pat.length (c :: cs))
    else
      c :: replListF pat rep fuel cs

/-- Python `s.replace(old, new)`. -/
def pyReplace (s old new : String) : String :=
  ⟨replListF old.data new.data s.data.length s.data⟩

/-- Scan the body of a candidate tag after its opening `<` and first content
character: content characters are anything but `<`; the first `>` closes the
tag (this is exactly the non-greedy regex `<[^<]+?>` used at
`src/app.py:570`). Returns the remainder after the closing `>`. -/
def tagBody : List Char → Option (List Char)
  | [] => none
  | d :: rest => if d = '>' then some rest else if d = '<' then none else tagBody rest

/-- After an opening `<`, try to match `[^<]+?>`: at least one non-`<`
character followed by the first closing `>`. -/
def findTagEnd : List Char → Option (List Char)
  | [] => none
  | c :: rest => if c = '<' then none else tagBody rest

/-- Model of `re.sub('<[^<]+?>', '', text)` (src/app.py:570): delete every match of
the non-greedy tag pattern, scanning left to right; an unmatched `<` is kept
literally.  Fueled structural recursion (fuel = list length suffices). -/
def stripTagsL : Nat → List Char → List Char
  | 0, l => l
  | _ + 1, [] => []
  | fuel + 1, c :: rest =>
    if c = '<' then
      match findTagEnd rest with
      | some rest2 => stripTagsL fuel rest2
      | none => c :: stripTagsL fuel rest
    else c :: stripTagsL fuel rest

/-- Tag removal on strings. -/
def stripTags (s : String) : String :=
  ⟨stripTagsL s.data.length s.data⟩

/-- Model of `clean_html_instruction` (src/app.py:562-579): falsy input yields the
fallback, otherwise strip tags, decode the five entities, and strip
whitespace. -/
def clean_html_instruction (html_instruction : String) : String :=
  if html_instruction = "" then "Continue straight"
  else
    let t0 := stripTags html_instruction
    let t1 := pyReplace t0 "&nbsp;" " "
    let t2 := pyReplace t1 "&amp;" "&"
    let t3 := pyReplace t2 "&lt;" "<"
    let t4 := pyReplace t3 "&gt;" ">"
    let t5 := pyReplace t4 "&quot;" "\""
    pyStrip t5

/-- Model of `clean_instruction_text` (src/app.py:581-595): falsy input yields the
fallback, otherwise strip and apply the four voice-friendliness
substitutions in source order. -/
def clean_instruction_text (instruction : String) : String :=
  if instruction = "" then "Continue straight"
  else
    let t0 := pyStrip instruction
    let t1 := pyReplace t0 "toward" "towards"
    let t2 := pyReplace t1 "Destination will be on the right" "Your destination will be on the right"
    let t3 := pyReplace t2 "Destination will be on the left" "Your destination will be on the left"
    let t4 := pyReplace t3 "Continue on" "Continue along"
    t4

/-- The end-to-end Instruction Text Cleaner as invoked by
`parse_google_directions` (src/app.py:485 then 497): HTML cleaning followed
by voice-friendliness cleaning. -/
def cleanInstruction (raw : String) : String :=
  clean_instruction_text (clean_html_instruction raw)

/-- Inline duration formatting of src/app.py:489 and 519
(`f"{d//60:.0f} min" if d >= 60 else f"{d:.0f} sec"`); on the integral
second counts returned by the provider, `:.0f` prints the integer itself
and `//` is floor division. -/
def formatDuration (duration_s : Nat) : String :=
  if duration_s ≥ 60 then toString (duration_s / 60) ++ " min"
  else toString duration_s ++ " sec"

/-- Round `d / 100` to the nearest integer, ties to even: the value of the
`:.1f` float format applied to `d / 1000`, expressed in tenths of a
kilometer.  (Double-precision artifacts could flip an exact tie; no claim
here depends on a tie.) -/
def roundTenths (d : Nat) : Nat :=
  let q := d / 100
  let r := d % 100
  if r < 50 then q
  else if 50 < r then q + 1
  else if q % 2 = 0 then q else q + 1

/-- Inline distance formatting of src/app.py:488 and 518
(`f"{d:.0f} m" if d < 1000 else f"{d/1000:.1f} km"`). -/
def formatDistance (distance_m : Nat) : String :=
  if distance_m < 1000 then toString distance_m ++ " m"
  else toString (roundTenths distance_m / 10) ++ "." ++ toString (roundTenths distance_m % 10) ++ " km"

/-- The generic-term table of `enhance_search_terms` (src/app.py:227-249),
in source order. -/
def generic_terms : List (String × String) :=
  [("library", "library near me"),
   ("hospital", "hospital near me"),
   ("school", "school near me"),
   ("restaurant", "restaurant near me"),
   ("pharmacy", "pharmacy near me"),
   ("bank", "bank near me"),
   ("grocery store", "grocery store near me"),
   ("gas station", "gas station near me"),
   ("shopping mall", "shopping mall near me"),
   ("park", "park near me"),
   ("gym", "gym near me"),
   ("university", "university near me"),
   ("college", "college near me"),
   ("airport", "airport near me"),
   ("train station", "train station near me"),
   ("bus station", "bus station near me"),
   ("hotel", "hotel near me"),
   ("cinema", "cinema near me"),
   ("movie theater", "movie theater near me"),
   ("coffee shop", "coffee shop near me"),
   ("post office", "post office near me")]

/-- Model of `enhance_search_terms` (src/app.py:222-257): lowercase and strip the
address, return the table's enhanced form when it equals a term or the term
plus a trailing `s`, otherwise return the address unchanged. -/
def enhance_search_terms (address : String) : String :=
  let address_lower := pyStrip (pyLower address)
  match generic_terms.find? (fun p => address_lower == p.1 || address_lower == p.1 ++ "s") with
  | some p => p.2
  | none => address

/-- A `{"text": ..., "value": ...}` JSON object as used for distances and
durations; only `value` is read by the code, via `.get('value', 0)`. -/
structure GTextValue where
  value : Option Nat
deriving DecidableEq

/-- A `{"lat": ..., "lng": ...}` JSON object read with `.get('lat', 0)` /
`.get('lng', 0)`. -/
structure GPoint where
  lat : Option Rat
  lng : Option Rat
deriving DecidableEq

/-- One entry of a Google leg's `steps` array, with exactly the keys
`parse_google_directions` reads (each via `.get` with the source's
default). -/
structure GStep where
  distance : Option GTextValue
  duration : Option GTextValue
  html_instructions : Option String
  start_location : Option GPoint
  end_location : Option GPoint
  maneuver : Option String
  travel_mode : Option String
deriving DecidableEq

/-- One entry of a route's `legs` array. -/
structure GLeg where
  distance : Option GTextValue
  duration : Option GTextValue
  steps : Option (List GStep)
  start_address : Option String
  end_address : Option String
deriving DecidableEq

/-- The `points` object under `overview_polyline`. -/
structure GPolyline where
  points : Option String
deriving DecidableEq

/-- One entry of the `routes` array.  `bounds` is an opaque passthrough
value (the code never inspects it), modelled as an optional token. -/
structure GRoute where
  legs : Option (List GLeg)
  overview_polyline : Option GPolyline
  bounds : Option String
deriving DecidableEq

/-- The top-level Google Directions response body. -/
structure GDirections where
  status : Option String
  error_message : Option String
  routes : Option (List GRoute)
deriving DecidableEq

/-- A canonical step dictionary produced by `parse_google_directions`
(src/app.py:495-513 and the fallback at 523-534).  `distance_value` is an
`Option` because the fallback step omits that key. -/
structure StepOut where
  step_number : Nat
  instruction : String
  distance : String
  duration : String
  distance_meters : Nat
  distance_value : Option Nat
  duration_seconds : Nat
  start_location : Rat × Rat
  end_location : Rat × Rat
  maneuver : String
  travel_mode : String
deriving DecidableEq

/-- The `route` object of a successful parse (src/app.py:542-555). -/
structure RouteOut where
  distance : String
  duration : String
  distance_meters : Nat
  duration_seconds : Nat
  steps : List StepOut
  start_address : String
  end_address : String
  overview_polyline : String
  bounds : Option String
deriving DecidableEq

/-- Model of `x.get('distance', {}).get('value', 0)` — the nested dict access with
defaults used for every distance and duration value. -/
def tvVal (t : Option GTextValue) : Nat :=
  (t.bind GTextValue.value).getD 0

/-- Model of `step.get('start_location', {})` then `.get('lat', 0)` / `.get('lng', 0)`
(src/app.py:503-510). -/
def pointOut (p : Option GPoint) : Rat × Rat :=
  match p with
  | none => (0, 0)
  | some q => (q.lat.getD 0, q.lng.getD 0)

/-- The step dictionary built by one iteration of the inner loop of
`parse_google_directions` (src/app.py:478-515). -/
def mkStepData (step_number : Nat) (step : GStep) : StepOut :=
  let distance_m := tvVal step.distance
  let duration_s := tvVal step.duration
  let instruction := clean_html_instruction (step.html_instructions.getD "Continue straight")
  { step_number := step_number
    instruction := clean_instruction_text instruction
    distance := formatDistance distance_m
    duration := formatDuration duration_s
    distance_meters := distance_m
    distance_value := some distance_m
    duration_seconds := duration_s
    start_location := pointOut step.start_location
    end_location := pointOut step.end_location
    maneuver := step.maneuver.getD "straight"
    travel_mode := step.travel_mode.getD "WALKING" }

/-- Inner loop over one leg's steps: builds the step dictionaries and
advances the running `step_number` counter. -/
def stepsFold (steps : List GStep) (n : Nat) : List StepOut × Nat :=
  match steps with
  | [] => ([], n)
  | st :: rest =>
    let s := mkStepData n st
    let (others, n2) := stepsFold rest (n + 1)
    (s :: others, n2)

/-- Model of `leg.get('distance', {}).get('value', 0)` (src/app.py:472). -/
def legDistVal (leg : GLeg) : Nat :=
  tvVal leg.distance

/-- Model of `leg.get('duration', {}).get('value', 0)` (src/app.py:473). -/
def legDurVal (leg : GLeg) : Nat :=
  tvVal leg.duration

/-- Outer loop of `parse_google_directions` (src/app.py:470-515): running
distance/duration totals, step list, and the step counter threaded across
legs. -/
def legsFold (legs : List GLeg) (dm ds n : Nat) : Nat × Nat × List StepOut × Nat :=
  match legs with
  | [] => (dm, ds, [], n)
  | leg :: rest =>
    let (here, n1) := stepsFold (leg.steps.getD []) n
    let (dmF, dsF, there, n2) := legsFold rest (dm + legDistVal leg) (ds + legDurVal leg) n1
    (dmF, dsF, here ++ there, n2)

/-- The synthetic fallback step appended when traversal produced no steps
(src/app.py:522-534). -/
def fallbackStep (destination_name total_distance total_duration : String)
    (total_distance_m total_duration_s : Nat) : StepOut :=
  { step_number := 1
    instruction := "Walk to " ++ destination_name
    distance := total_distance
    duration := total_duration
    distance_meters := total_distance_m
    distance_value := none
    duration_seconds := total_duration_s
    start_location := (0, 0)
    end_location := (0, 0)
    maneuver := "straight"
    travel_mode := "WALKING" }

/-- Model of `parse_google_directions` (src/app.py:448-560).  The `ValueError`
raises are modelled as `Except.error` with the exception message; the
handler only distinguishes success from failure.  The `legs[0]`/`legs[-1]`
address defaults of lines 539-540 always take the nonempty branch here
because the empty-legs case raised earlier. -/
def parse_google_directions (directions_data : GDirections) (destination_name : String) :
    Except String RouteOut :=
  match directions_data.routes.getD [] with
  | [] => Except.error "No routes in Google response"
  | route :: _ =>
    match route.legs.getD [] with
    | [] => Except.error "Missing route legs"
    | leg0 :: restLegs =>
      let legs := leg0 :: restLegs
      let (total_distance_m, total_duration_s, steps0, _) := legsFold legs 0 0 1
      let total_distance := formatDistance total_distance_m
      let total_duration := formatDuration total_duration_s
      let steps :=
        if steps0.isEmpty then
          [fallbackStep destination_name total_distance total_duration total_distance_m total_duration_s]
        else steps0
      Except.ok
        { distance := total_distance
          duration := total_duration
          distance_meters := total_distance_m
          duration_seconds := total_duration_s
          steps := steps
          start_address := leg0.start_address.getD "Current Location"
          end_address := (legs.getLast (List.cons_ne_nil _ _)).end_address.getD destination_name
          overview_polyline := (route.overview_polyline.bind GPolyline.points).getD ""
          bounds := route.bounds }

/-- The legs the parser will traverse for a given payload: the `legs` of
the first route (empty when the payload has no routes or no legs). -/
def legsOf (d : GDirections) : List GLeg :=
  match d.routes.getD [] with
  | [] => []
  | route :: _ => route.legs.getD []

/-- All steps of a leg list, legs in payload order and steps in leg order
(each leg read via `leg.get('steps', [])`). -/
def allSteps : List GLeg → List GStep
  | [] => []
  | leg :: rest => leg.steps.getD [] ++ allSteps rest

deriving instance DecidableEq for Except

theorem stepsFold_eq (steps : List GStep) (n : Nat) :
    stepsFold steps n = ((List.range' n steps.length).zipWith mkStepData steps, n + steps.length) := by
  induction steps generalizing n with
  | nil => rfl
  | cons st rest ih =>
    simp only [stepsFold, ih, List.length_cons, List.range'_succ, List.zipWith_cons_cons,
      Prod.mk.injEq, List.cons.injEq, true_and]
    omega

theorem zipSteps_length (n : Nat) (ss : List GStep) :
    ((List.range' n ss.length).zipWith mkStepData ss).length = ss.length := by
  simp [List.length_zipWith]

theorem zipSteps_isEmpty (n : Nat) (ss : List GStep) :
    ((List.range' n ss.length).zipWith mkStepData ss).isEmpty = ss.isEmpty := by
  cases ss <;> simp [List.range'_succ]

theorem legsFold_eq (legs : List GLeg) (dm ds n : Nat) :
    legsFold legs dm ds n =
      (dm + (legs.map legDistVal).sum, ds + (legs.map legDurVal).sum,
       (List.range' n (allSteps legs).length).zipWith mkStepData (allSteps legs),
       n + (allSteps legs).length) := by
  induction legs generalizing dm ds n with
  | nil => simp [legsFold, allSteps]
  | cons leg rest ih =>
    simp only [legsFold, stepsFold_eq, ih, allSteps, List.map_cons, List.sum_cons,
      List.length_append, Prod.mk.injEq]
    refine ⟨by omega, by omega, ?_, by omega⟩
    rw [show (leg.steps.getD []).length + (allSteps rest).length
          = (allSteps rest).length + (leg.steps.getD []).length from Nat.add_comm _ _,
      ← List.range'_append_1,
      List.zipWith_append _ _ _ _ _ (by simp)]

theorem zipWith_mkStepData_numbers (ns : List Nat) (ss : List GStep) (h : ns.length = ss.length) :
    (ns.zipWith mkStepData ss).map StepOut.step_number = ns := by
  induction ns generalizing ss with
  | nil => simp
  | cons n rest ih =>
    cases ss with
    | nil => simp at h
    | cons s ss' =>
      simp only [List.zipWith_cons_cons, List.map_cons, List.cons.injEq]
      exact ⟨rfl, ih ss' (by simpa using h)⟩

/-- C8: `parse_google_directions` walks legs in payload order and steps in
leg order, numbering the output steps with a single running counter from 1
that is not reset at leg boundaries (so the ordinals are consecutive
`1..N`), and the route totals are the sums of every leg's reported distance
and duration values. -/
theorem parse_ordinals_and_totals (d : GDirections) (dest : String) (r : RouteOut)
    (h : parse_google_directions d dest = Except.ok r) :
    r.steps.map StepOut.step_number = List.range' 1 r.steps.length
    ∧ r.distance_meters = ((legsOf d).map legDistVal).sum
    ∧ r.duration_seconds = ((legsOf d).map legDurVal).sum
    ∧ (allSteps (legsOf d) ≠ [] →
        r.steps = (List.range' 1 (allSteps (legsOf d)).length).zipWith mkStepData
          (allSteps (legsOf d))) := by
  unfold parse_google_directions at h
  split at h
  · exact absurd h (by simp)
  rename_i route restRoutes hR
  split at h
  · exact absurd h (by simp)
  rename_i leg0 restLegs hL
  simp only [legsFold_eq, Nat.zero_add, Except.ok.injEq] at h
  have hlegs : legsOf d = leg0 :: restLegs := by
    unfold legsOf
    rw [hR]
    exact hL
  subst h
  rw [hlegs]
  dsimp only
  by_cases hE : allSteps (leg0 :: restLegs) = []
  · simp [hE, fallbackStep]
  · have hne : (allSteps (leg0 :: restLegs)).isEmpty = false := by
      simpa using hE
    rw [zipSteps_isEmpty, hne]
    simp only [Bool.false_eq_true, if_false, ne_eq, hE, not_false_eq_true, true_implies,
      and_true, true_and]
    rw [zipSteps_length]
    exact zipWith_mkStepData_numbers _ _ (by simp)

/-- C4: whenever the parser succeeds, the route's step list is non-empty;
and when the traversal yielded zero steps, the step list is exactly one
synthesized fallback step with instruction `Walk to <destination>`, the
route's total distance/duration (both raw and display values), endpoints
`(0, 0)`, maneuver `straight`, travel mode `WALKING`, and no
`distance_value` key. -/
theorem parse_nonempty_and_fallback (d : GDirections) (dest : String) (r : RouteOut)
    (h : parse_google_directions d dest = Except.ok r) :
    r.steps ≠ []
    ∧ (allSteps (legsOf d) = [] →
        r.steps = [{ step_number := 1
                     instruction := "Walk to " ++ dest
                     distance := r.distance
                     duration := r.duration
                     distance_meters := r.distance_meters
                     distance_value := none
                     duration_seconds := r.duration_seconds
                     start_location := (0, 0)
                     end_location := (0, 0)
                     maneuver := "straight"
                     travel_mode := "WALKING" }]) := by
  unfold parse_google_directions at h
  split at h
  · exact absurd h (by simp)
  rename_i route restRoutes hR
  split at h
  · exact absurd h (by simp)
  rename_i leg0 restLegs hL
  simp only [legsFold_eq, Nat.zero_add, Except.ok.injEq] at h
  have hlegs : legsOf d = leg0 :: restLegs := by
    unfold legsOf
    rw [hR]
    exact hL
  subst h
  rw [hlegs]
  dsimp only
  by_cases hE : allSteps (leg0 :: restLegs) = []
  · simp [hE, fallbackStep]
  · have hne : (allSteps (leg0 :: restLegs)).isEmpty = false := by
      simpa using hE
    rw [zipSteps_isEmpty, hne]
    simp only [Bool.false_eq_true, if_false, ne_eq, hE, not_false_eq_true, false_implies,
      and_true]
    rcases hS : allSteps (leg0 :: restLegs) with _ | ⟨s0, restSteps⟩
    · exact absurd hS hE
    · simp [List.range'_succ]

def payloadNoSteps : GDirections :=
  { status := some "OK"
    error_message := none
    routes := some [{ legs := some [{ distance := some ⟨some 500⟩
                                      duration := some ⟨some 120⟩
                                      steps := none
                                      start_address := none
                                      end_address := some "X Rd" }]
                      overview_polyline := none
                      bounds := none }] }

def routeNoSteps : RouteOut :=
  { distance := "500 m"
    duration := "2 min"
    distance_meters := 500
    duration_seconds := 120
    steps := [{ step_number := 1
                instruction := "Walk to Cafe"
                distance := "500 m"
                duration := "2 min"
                distance_meters := 500
                distance_value := none
                duration_seconds := 120
                start_location := (0, 0)
                end_location := (0, 0)
                maneuver := "straight"
                travel_mode := "WALKING" }]
    start_address := "Current Location"
    end_address := "X Rd"
    overview_polyline := ""
    bounds := none }

theorem parse_nonempty_and_fallback_witness :
    routeNoSteps.steps ≠ []
    ∧ (allSteps (legsOf payloadNoSteps) = [] →
        routeNoSteps.steps = [{ step_number := 1
                                instruction := "Walk to " ++ "Cafe"
                                distance := routeNoSteps.distance
                                duration := routeNoSteps.duration
                                distance_meters := routeNoSteps.distance_meters
                                distance_value := none
                                duration_seconds := routeNoSteps.duration_seconds
                                start_location := (0, 0)
                                end_location := (0, 0)
                                maneuver := "straight"
                                travel_mode := "WALKING" }]) :=
  parse_nonempty_and_fallback payloadNoSteps "Cafe" routeNoSteps (by decide)

def stepTurnLeft : GStep :=
  { distance := some ⟨some 100⟩
    duration := some ⟨some 30⟩
    html_instructions := some "Turn left"
    start_location := some ⟨some 1, some 2⟩
    end_location := some ⟨some 3, some 4⟩
    maneuver := some "turn-left"
    travel_mode := none }

def stepBare : GStep :=
  { distance := none
    duration := some ⟨some 95⟩
    html_instructions := none
    start_location := none
    end_location := none
    maneuver := none
    travel_mode := some "WALKING" }

def payloadTwoLegs : GDirections :=
  { status := some "OK"
    error_message := none
    routes := some [{ legs := some [{ distance := some ⟨some 300⟩
                                      duration := some ⟨some 60⟩
                                      steps := some [stepTurnLeft, stepBare]
                                      start_address := some "A St"
                                      end_address := some "B St" },
                                    { distance := some ⟨some 200⟩
                                      duration := some ⟨some 40⟩
                                      steps := some [stepTurnLeft]
                                      start_address := none
                                      end_address := none }]
                      overview_polyline := none
                      bounds := none }] }

def routeTwoLegs : RouteOut :=
  { distance := "500 m"
    duration := "1 min"
    distance_meters := 500
    duration_seconds := 100
    steps := [mkStepData 1 stepTurnLeft, mkStepData 2 stepBare, mkStepData 3 stepTurnLeft]
    start_address := "A St"
    end_address := "Mall"
    overview_polyline := ""
    bounds := none }

theorem parse_ordinals_and_totals_witness :
    routeTwoLegs.steps.map StepOut.step_number = List.range' 1 routeTwoLegs.steps.length
    ∧ routeTwoLegs.distance_meters = ((legsOf payloadTwoLegs).map legDistVal).sum
    ∧ routeTwoLegs.duration_seconds = ((legsOf payloadTwoLegs).map legDurVal).sum
    ∧ (allSteps (legsOf payloadTwoLegs) ≠ [] →
        routeTwoLegs.steps = (List.range' 1 (allSteps (legsOf payloadTwoLegs)).length).zipWith
          mkStepData (allSteps (legsOf payloadTwoLegs))) :=
  parse_ordinals_and_totals payloadTwoLegs "Mall" routeTwoLegs (by decide)

/-- C7: `formatDuration` renders durations below 60 seconds as integer
seconds with unit `sec`, and 60 seconds or more as floor-divided minutes
with unit `min`; in particular 45 ↦ `45 sec`, 60 ↦ `1 min`,
125 ↦ `2 min`. -/
theorem formatDuration_spec :
    (∀ n : Nat, n < 60 → formatDuration n = toString n ++ " sec")
    ∧ (∀ n : Nat, 60 ≤ n → formatDuration n = toString (n / 60) ++ " min")
    ∧ formatDuration 45 = "45 sec"
    ∧ formatDuration 60 = "1 min"
    ∧ formatDuration 125 = "2 min" := by
  refine ⟨fun n hn => ?_, fun n hn => ?_, by decide, by decide, by decide⟩
  · unfold formatDuration
    rw [if_neg (by omega)]
  · unfold formatDuration
    rw [if_pos hn]

theorem formatDuration_spec_witness :
    formatDuration 59 = toString 59 ++ " sec" ∧ formatDuration 119 = toString (119 / 60) ++ " min" :=
  ⟨formatDuration_spec.1 59 (by omega), formatDuration_spec.2.1 119 (by omega)⟩

/-- Every entry of the generic-term table maps to an enhanced string that
itself matches no table entry, so enhancing it again is a no-op. -/
theorem enhance_enhanced_fixed :
    ∀ p ∈ generic_terms, enhance_search_terms p.2 = p.2 := by decide

/-- C9: `enhance_search_terms` is idempotent: an enhanced result never
again matches the generic-term table, and non-generic inputs are returned
unchanged. -/
theorem enhance_search_terms_idempotent (s : String) :
    enhance_search_terms (enhance_search_terms s) = enhance_search_terms s := by
  cases hf : generic_terms.find?
      (fun p => pyStrip (pyLower s) == p.1 || pyStrip (pyLower s) == p.1 ++ "s") with
  | none =>
    have h1 : enhance_search_terms s = s := by
      simp only [enhance_search_terms, hf]
    rw [h1]
    exact h1
  | some p =>
    have h1 : enhance_search_terms s = p.2 := by
      simp only [enhance_search_terms, hf]
    rw [h1]
    exact enhance_enhanced_fixed p (List.mem_of_find?_eq_some hf)

/-- C10: the `toward` → `towards` substitution of
`clean_instruction_text` (src/app.py:590) rewrites the occurrence of
`toward` embedded in an existing `towards`, so a second application of the
cleaner produces `towardss` and the cleaner is not idempotent. -/
theorem toward_substitution_not_idempotent :
    clean_instruction_text "Head towards the market" = "Head towardss the market"
    ∧ cleanInstruction "Turn left toward Main St" = "Turn left towards Main St"
    ∧ cleanInstruction (cleanInstruction "Turn left toward Main St")
        ≠ cleanInstruction "Turn left toward Main St" := by
  refine ⟨by decide, by decide, by decide⟩

/-- The head of the result of a replacement pass is the head of the input
or the head of the replacement string. -/
theorem replListF_head? (pat rep : List Char) (hrep : rep ≠ []) (fuel : Nat) (l : List Char) :
    (replListF pat rep fuel l).head? = l.head? ∨ (replListF pat rep fuel l).head? = rep.head? := by
  cases fuel with
  | zero => exact Or.inl rfl
  | succ f =>
    cases l with
    | nil => exact Or.inl rfl
    | cons c cs =>
      simp only [replListF]
      by_cases hb : (!pat.isEmpty && pat.isPrefixOf (c :: cs)) = true
      · rw [if_pos hb]
        right
        cases rep with
        | nil => exact absurd rfl hrep
        | cons r rs => rfl
      · rw [if_neg hb]
        exact Or.inl rfl

theorem replListF_nil_eq (pat rep : List Char) (fuel : Nat) :
    replListF pat rep fuel [] = [] := by
  cases fuel <;> rfl

theorem replListF_ne_nil (pat rep : List Char) (hrep : rep ≠ []) (fuel : Nat) (l : List Char)
    (hl : l ≠ []) : replListF pat rep fuel l ≠ [] := by
  cases fuel with
  | zero => exact hl
  | succ f =>
    cases l with
    | nil => exact absurd rfl hl
    | cons c cs =>
      simp only [replListF]
      by_cases hb : (!pat.isEmpty && pat.isPrefixOf (c :: cs)) = true
      · rw [if_pos hb]
        cases rep with
        | nil => exact absurd rfl hrep
        | cons r rs => simp
      · rw [if_neg hb]
        simp

theorem getLast?_cons_of_ne_nil (c : Char) (l : List Char) (h : l ≠ []) :
    (c :: l).getLast? = l.getLast? := by
  cases l with
  | nil => exact absurd rfl h
  | cons b bs => exact List.getLast?_cons_cons

theorem getLast?_append_of_ne_nil (l1 l2 : List Char) (h : l2 ≠ []) :
    (l1 ++ l2).getLast? = l2.getLast? := by
  rw [List.getLast?_append]
  obtain ⟨y, hy⟩ := Option.isSome_iff_exists.mp (List.getLast?_isSome.mpr h)
  rw [hy]
  rfl

theorem getLast?_drop_of_ne_nil : ∀ (n : Nat) (l : List Char), List.drop n l ≠ [] →
    (List.drop n l).getLast? = l.getLast? := by
  intro n
  induction n with
  | zero => intro l _; rfl
  | succ m ih =>
    intro l h
    cases l with
    | nil => exact absurd rfl h
    | cons c cs =>
      have hd : List.drop (m + 1) (c :: cs) = List.drop m cs := rfl
      rw [hd] at h ⊢
      rw [ih cs h]
      have hcs : cs ≠ [] := by
        intro he
        rw [he] at h
        exact h (List.drop_nil)
      exact (getLast?_cons_of_ne_nil c cs hcs).symm

/-- The last element of the result of a replacement pass is the last of
the input or the last of the replacement string. -/
theorem replListF_getLast? (pat rep : List Char) (hrep : rep ≠ []) :
    ∀ (fuel : Nat) (l : List Char), l ≠ [] →
      (replListF pat rep fuel l).getLast? = l.getLast?
      ∨ (replListF pat rep fuel l).getLast? = rep.getLast? := by
  intro fuel
  induction fuel with
  | zero => intro l _; exact Or.inl rfl
  | succ f ih =>
    intro l hl
    cases l with
    | nil => exact absurd rfl hl
    | cons c cs =>
      simp only [replListF]
      by_cases hb : (!pat.isEmpty && pat.isPrefixOf (c :: cs)) = true
      · rw [if_pos hb]
        by_cases hdn : List.drop pat.length (c :: cs) = []
        · rw [hdn, replListF_nil_eq, List.append_nil]
          exact Or.inr rfl
        · rw [getLast?_append_of_ne_nil _ _ (replListF_ne_nil pat rep hrep f _ hdn)]
          rcases ih _ hdn with h2 | h2
          · left
            rw [h2]
            exact getLast?_drop_of_ne_nil _ _ hdn
          · right
            exact h2
      · rw [if_neg hb]
        by_cases hcs : cs = []
        · subst hcs
          rw [replListF_nil_eq]
          exact Or.inl rfl
        · rw [getLast?_cons_of_ne_nil _ _ (replListF_ne_nil pat rep hrep f cs hcs),
            getLast?_cons_of_ne_nil c cs hcs]
          exact ih cs hcs

/-- No-whitespace-at-the-head predicate used to state the trimming
properties of the cleaner. -/
def noWsHead (l : List Char) : Prop :=
  ∀ c, l.head? = some c → pyIsSpaceB c = false

/-- No-whitespace-at-the-end predicate. -/
def noWsLast (l : List Char) : Prop :=
  ∀ c, l.getLast? = some c → pyIsSpaceB c = false

/-- Both edges of a string are free of whitespace (vacuously true for the
empty string). -/
def noWsEdges (s : String) : Prop :=
  noWsHead s.data ∧ noWsLast s.data

theorem noWsHead_of_head? (l : List Char) (c : Char) (h : l.head? = some c)
    (hc : pyIsSpaceB c = false) : noWsHead l := by
  intro c2 h2
  rw [h] at h2
  injection h2 with h3
  rwa [← h3]

theorem noWsLast_of_getLast? (l : List Char) (c : Char) (h : l.getLast? = some c)
    (hc : pyIsSpaceB c = false) : noWsLast l := by
  intro c2 h2
  rw [h] at h2
  injection h2 with h3
  rwa [← h3]

theorem head?_dropWhile_not (p : Char → Bool) (l : List Char) :
    ∀ c, (l.dropWhile p).head? = some c → p c = false := by
  induction l with
  | nil => intro c h; exact absurd h (by simp)
  | cons a as ih =>
    intro c h
    rw [List.dropWhile_cons] at h
    by_cases hp : p a = true
    · rw [if_pos hp] at h
      exact ih c h
    · rw [if_neg hp] at h
      injection h with h2
      rw [← h2]
      exact Bool.not_eq_true _ ▸ hp

theorem getLast?_dropWhile_of_ne_nil (p : Char → Bool) (l : List Char)
    (h : l.dropWhile p ≠ []) : (l.dropWhile p).getLast? = l.getLast? := by
  induction l with
  | nil => exact absurd rfl h
  | cons a as ih =>
    rw [List.dropWhile_cons] at h ⊢
    by_cases hp : p a = true
    · rw [if_pos hp] at h ⊢
      have has : as ≠ [] := by
        intro he
        rw [he] at h
        exact h (by simp)
      rw [getLast?_cons_of_ne_nil a as has]
      exact ih h
    · rw [if_neg hp]

theorem pyStrip_noWsEdges (y : String) : noWsEdges (pyStrip y) := by
  have hdata : (pyStrip y).data = pyStripL y.data := rfl
  constructor
  · intro c hc
    rw [hdata] at hc
    have hx : (pyStripL y.data).head?
        = ((y.data.dropWhile pyIsSpaceB).reverse.dropWhile pyIsSpaceB).getLast? := by
      unfold pyStripL
      exact List.head?_reverse _
    rw [hx] at hc
    have hne : (y.data.dropWhile pyIsSpaceB).reverse.dropWhile pyIsSpaceB ≠ [] := by
      intro he
      rw [he] at hc
      exact absurd hc (by simp)
    rw [getLast?_dropWhile_of_ne_nil _ _ hne, List.getLast?_reverse] at hc
    exact head?_dropWhile_not pyIsSpaceB y.data c hc
  · intro c hc
    rw [hdata] at hc
    have hx : (pyStripL y.data).getLast?
        = ((y.data.dropWhile pyIsSpaceB).reverse.dropWhile pyIsSpaceB).head? := by
      unfold pyStripL
      exact List.getLast?_reverse _
    rw [hx] at hc
    exact head?_dropWhile_not pyIsSpaceB _ c hc

theorem pyReplace_noWsEdges (s old new : String) (hne : new.data ≠ [])
    (hh : noWsHead new.data) (hl : noWsLast new.data) (hs : noWsEdges s) :
    noWsEdges (pyReplace s old new) := by
  constructor
  · intro c hc
    rcases replListF_head? old.data new.data hne s.data.length s.data with h | h
    · exact hs.1 c (h ▸ hc)
    · exact hh c (h ▸ hc)
  · intro c hc
    by_cases hsd : s.data = []
    · have hz : (pyReplace s old new).data = [] := by
        show replListF old.data new.data s.data.length s.data = []
        rw [hsd]
        exact replListF_nil_eq _ _ _
      rw [hz] at hc
      exact absurd hc (by simp)
    · rcases replListF_getLast? old.data new.data hne s.data.length s.data hsd with h | h
      · exact hs.2 c (h ▸ hc)
      · exact hl c (h ▸ hc)

theorem clean_instruction_text_noWsEdges (y : String) :
    noWsEdges (clean_instruction_text y) := by
  unfold clean_instruction_text
  by_cases hy : y = ""
  · rw [if_pos hy]
    exact ⟨noWsHead_of_head? _ 'C' (by decide) (by decide),
      noWsLast_of_getLast? _ 't' (by decide) (by decide)⟩
  · rw [if_neg hy]
    have h0 : noWsEdges (pyStrip y) := pyStrip_noWsEdges y
    have h1 := pyReplace_noWsEdges (pyStrip y) "toward" "towards" (by decide)
      (noWsHead_of_head? _ 't' (by decide) (by decide))
      (noWsLast_of_getLast? _ 's' (by decide) (by decide)) h0
    have h2 := pyReplace_noWsEdges _ "Destination will be on the right"
      "Your destination will be on the right" (by decide)
      (noWsHead_of_head? _ 'Y' (by decide) (by decide))
      (noWsLast_of_getLast? _ 't' (by decide) (by decide)) h1
    have h3 := pyReplace_noWsEdges _ "Destination will be on the left"
      "Your destination will be on the left" (by decide)
      (noWsHead_of_head? _ 'Y' (by decide) (by decide))
      (noWsLast_of_getLast? _ 't' (by decide) (by decide)) h2
    exact pyReplace_noWsEdges _ "Continue on" "Continue along" (by decide)
      (noWsHead_of_head? _ 'C' (by decide) (by decide))
      (noWsLast_of_getLast? _ 'g' (by decide) (by decide)) h3

/-- Boolean check: the first character, if any, is not whitespace. -/
def headNoWsB (l : List Char) : Bool :=
  match l.head? with
  | some c => !pyIsSpaceB c
  | none => true

/-- Boolean check: the final character, if any, is not whitespace. -/
def lastNoWsB (l : List Char) : Bool :=
  match l.getLast? with
  | some c => !pyIsSpaceB c
  | none => true

theorem headNoWsB_eq_true (l : List Char) (h : noWsHead l) : headNoWsB l = true := by
  unfold headNoWsB
  cases hl : l.head? with
  | none => rfl
  | some c => simp [h c hl]

theorem lastNoWsB_eq_true (l : List Char) (h : noWsLast l) : lastNoWsB l = true := by
  unfold lastNoWsB
  cases hl : l.getLast? with
  | none => rfl
  | some c => simp [h c hl]

/-- Boolean check for a run of two or more consecutive whitespace
characters. -/
def hasWsRunL : List Char → Bool
  | c1 :: c2 :: rest => (pyIsSpaceB c1 && pyIsSpaceB c2) || hasWsRunL (c2 :: rest)
  | _ => false

/-- C6 counterexample: the cleaned instruction for `a&nbsp;&nbsp;b` is
`a  b`, which still contains a run of two spaces — the cleaner never
collapses whitespace runs. -/
theorem cleaner_keeps_whitespace_run :
    cleanInstruction "a&nbsp;&nbsp;b" = "a  b"
    ∧ hasWsRunL (cleanInstruction "a&nbsp;&nbsp;b").data = true := by
  refine ⟨by decide, by decide⟩

/-- C6 (amended): the cleaner trims — its output never starts or ends with
whitespace — but interior whitespace runs are preserved, not collapsed
(witnessed by the `a&nbsp;&nbsp;b` example, whose cleaned form keeps the
double space). -/
theorem cleaner_trims_edges_only :
    (∀ raw : String, headNoWsB (cleanInstruction raw).data = true
      ∧ lastNoWsB (cleanInstruction raw).data = true)
    ∧ cleanInstruction "a&nbsp;&nbsp;b" = "a  b" := by
  refine ⟨fun raw => ?_, by decide⟩
  have h := clean_instruction_text_noWsEdges (clean_html_instruction raw)
  exact ⟨headNoWsB_eq_true _ h.1, lastNoWsB_eq_true _ h.2⟩

/-- Python `s.split(',')`: split at every comma, keeping empty parts. -/
def splitComma : List Char → List (List Char)
  | [] => [[]]
  | c :: cs =>
    if c = ',' then [] :: splitComma cs
    else
      match splitComma cs with
      | [] => [[c]]
      | part :: rest => (c :: part) :: rest

/-- Recognizer for one half of the coordinate regex of src/app.py:126,
`-?\d+\.?\d*`: optional minus, at least one digit, then optionally a dot
followed by digits. -/
def matchesHalf (l : List Char) : Bool :=
  let body := match l with
    | '-' :: r => r
    | _ => l
  let ds := body.takeWhile Char.isDigit
  let rest := body.dropWhile Char.isDigit
  !ds.isEmpty &&
    (match rest with
     | [] => true
     | '.' :: r2 => r2.all Char.isDigit
     | _ => false)

/-- Model of `re.match(r'^-?\d+\.?\d*,-?\d+\.?\d*$', s)` (src/app.py:126): the two
halves contain no comma, so the regex matches exactly when splitting on
commas yields two parts that each match a half. -/
def matchesCoordPattern (s : String) : Bool :=
  match splitComma s.data with
  | [a, b] => matchesHalf a && matchesHalf b
  | _ => false

/-- Digit list to natural number. -/
def digitsToNat (l : List Char) : Nat :=
  l.foldl (fun n c => n * 10 + (c.toNat - 48)) 0

/-- Python `float()` on the sub-language accepted by the coordinate regex
(optional minus, digits, optional fraction); Python floats are modelled as
exact rationals — the double rounding of CPython is far below the
granularity of any range check or claim proved here.  Anything outside
that sub-language yields `none` (a `ValueError`). -/
def parseFloatBody (l : List Char) : Option Rat :=
  let ds := l.takeWhile Char.isDigit
  let rest := l.dropWhile Char.isDigit
  if ds.isEmpty then none
  else
    match rest with
    | [] => some (mkRat (digitsToNat ds) 1)
    | '.' :: fs =>
      if fs.all Char.isDigit then
        some (mkRat (digitsToNat ds * 10 ^ fs.length + digitsToNat fs) (10 ^ fs.length))
      else none
    | _ => none

def parseFloatL (l : List Char) : Option Rat :=
  match l with
  | '-' :: r => (parseFloatBody r).map (fun q => -q)
  | _ => parseFloatBody l

/-- Model of `lat, lng = map(float, s.split(','))` with the `ValueError` path
(wrong part count or unparseable floats) as `none`. -/
def parseLatLng (s : String) : Option (Rat × Rat) :=
  match splitComma s.data with
  | [a, b] =>
    match parseFloatL a, parseFloatL b with
    | some x, some y => some (x, y)
    | _, _ => none
  | _ => none

/-- Fractional decimal digits of `rem / den` (with `rem < den`), at most
`fuel` digits: long division. -/
def fracDigitsN : Nat → Nat → Nat → String
  | 0, _, _ => ""
  | f + 1, rem, den =>
    if rem = 0 then ""
    else toString (rem * 10 / den) ++ fracDigitsN f (rem * 10 % den) den

/-- Decimal rendering of a `Rat` the way Python prints the corresponding
float in an f-string (`f"{lat},{lng}"`, src/app.py:159): used only to
build the resolved destination string.  Exact for terminating decimal
fractions (the only values any theorem below evaluates it on); other
rationals are truncated at 17 fractional digits.  Implemented by long
division on the numerator and denominator. -/
def pyFloatStr (q : Rat) : String :=
  let sgn := if q.num < 0 then "-" else ""
  let n := q.num.natAbs
  let ip := n / q.den
  let rem := n % q.den
  if rem = 0 then sgn ++ toString ip ++ ".0"
  else sgn ++ toString ip ++ "." ++ fracDigitsN 17 rem q.den

/-- Outcome of one `requests.get(...)` plus `raise_for_status()` plus
`response.json()` sequence: parsed body, timeout, transport/HTTP error, or
a body that fails JSON parsing. -/
inductive NetResult (α : Type) where
  | ok (data : α)
  | timeout
  | httpError
  | badJson

/-- One geocoding result entry: `results[0]['geometry']['location']` with
`lat`/`lng`; a missing level raises `KeyError`, which the blanket
`except` of `geocode_address` turns into `None`, so the whole chain is
modelled as a single `Option`. -/
structure GeoResultEntry where
  location : Option (Rat × Rat)
deriving DecidableEq

/-- Google Geocoding API response body. -/
structure GeoPayload where
  status : Option String
  results : Option (List GeoResultEntry)
deriving DecidableEq

/-- One Places API result entry (`['geometry']['location']` collapsed as
in `GeoResultEntry`; `name` read via `.get('name', ...)`). -/
structure PlaceEntry where
  location : Option (Rat × Rat)
  name : Option String
deriving DecidableEq

/-- Google Places nearby-search response body. -/
structure PlacesPayload where
  status : Option String
  results : Option (List PlaceEntry)
deriving DecidableEq

/-- A record of one outbound HTTP request, carrying the
request-identifying parameters (the fixed parameters — API key,
`radius=5000` (recorded), `mode=walking`, `units=metric`, `language=en` —
are constants in the source). -/
inductive Call where
  | geocode (address : String)
  | places (location : Rat × Rat) (radius : Nat) (searchType : String)
  | directions (origin destination : String)
deriving DecidableEq

/-- The network oracle: what each endpoint would answer for given request
parameters.  Arguments mirror the non-constant request parameters
(geocode: address and key; places: location, radius, type, key;
directions: origin, destination, key). -/
structure Net where
  geocode : String → String → NetResult GeoPayload
  places : Rat × Rat → Nat → String → String → NetResult PlacesPayload
  directions : String → String → String → NetResult GDirections

/-- Return value of `geocode_address`: a coordinate dict, an error dict
(`{'error': ..., 'message': ...}`), or Python `None`. -/
inductive GeoReturn where
  | found (lat lng : Rat)
  | gerror (error : Option String) (message : String)
  | nothing
deriving DecidableEq

/-- Return value of `get_google_directions`: the payload, an error dict,
or Python `None`. -/
inductive DirReturn where
  | payload (data : GDirections)
  | derror (error : Option String) (message : String)
  | nothing
deriving DecidableEq

/-- Model of `geocode_address` (src/app.py:329-382), paired with the trace of
network calls it issues.  The address is enhanced *before* the one and
only geocoding request; `Timeout`, transport errors and JSON-parse
failures are all caught internally and returned as `None`
(src/app.py:345-349 and 374-382). -/
def geocode_address (net : Net) (address api_key : String) : GeoReturn × List Call :=
  let enhanced_address := enhance_search_terms address
  let trace := [Call.geocode enhanced_address]
  match net.geocode enhanced_address api_key with
  | .timeout => (.nothing, trace)
  | .httpError => (.nothing, trace)
  | .badJson => (.nothing, trace)
  | .ok data =>
    if data.status ≠ some "OK" then
      if data.status = some "ZERO_RESULTS" then
        (.gerror data.status "Location not found, please try again.", trace)
      else if data.status = some "REQUEST_DENIED" then
        (.gerror data.status "Navigation service unavailable", trace)
      else
        (.gerror data.status "Unable to find location", trace)
    else
      match data.results.getD [] with
      | [] => (.nothing, trace)
      | entry :: _ =>
        match entry.location with
        | some (lat, lng) => (.found lat lng, trace)
        | none => (.nothing, trace)

/-- The place-type table of `find_nearby_place` (src/app.py:266-288). -/
def place_type_mapping : List (String × String) :=
  [("library", "library"),
   ("hospital", "hospital"),
   ("school", "school"),
   ("restaurant", "restaurant"),
   ("pharmacy", "pharmacy"),
   ("bank", "bank"),
   ("grocery store", "grocery_or_supermarket"),
   ("gas station", "gas_station"),
   ("shopping mall", "shopping_mall"),
   ("park", "park"),
   ("gym", "gym"),
   ("university", "university"),
   ("college", "university"),
   ("airport", "airport"),
   ("train station", "train_station"),
   ("bus station", "bus_station"),
   ("hotel", "lodging"),
   ("cinema", "movie_theater"),
   ("movie theater", "movie_theater"),
   ("coffee shop", "cafe"),
   ("post office", "post_office")]

/-- Model of `place_type_mapping.get(place_type.lower(), place_type.lower())`
(src/app.py:291). -/
def searchTypeOf (place_type : String) : String :=
  ((place_type_mapping.find? (fun p => p.1 == pyLower place_type)).map Prod.snd).getD
    (pyLower place_type)

/-- Model of `find_nearby_place` (src/app.py:259-327): everything is inside a
blanket `try`, so a malformed origin, a timeout, a transport error, a
JSON failure or a missing `geometry` all return `None`.  Radius is the
fixed 5000 m. -/
def find_nearby_place (net : Net) (place_type origin_coords api_key : String) :
    Option (Rat × Rat × String) × List Call :=
  match parseLatLng origin_coords with
  | none => (none, [])
  | some (origin_lat, origin_lng) =>
    let search_type := searchTypeOf place_type
    let trace := [Call.places (origin_lat, origin_lng) 5000 search_type]
    match net.places (origin_lat, origin_lng) 5000 search_type api_key with
    | .timeout => (none, trace)
    | .httpError => (none, trace)
    | .badJson => (none, trace)
    | .ok data =>
      if data.status == some "OK" && !(data.results.getD []).isEmpty then
        match (data.results.getD []).head? with
        | some place =>
          match place.location with
          | some (lat, lng) => (some (lat, lng, place.name.getD place_type), trace)
          | none => (none, trace)
        | none => (none, trace)
      else (none, trace)

/-- Model of `get_google_directions` (src/app.py:384-446): the status branches of
lines 411-424 (note the default branch keeps the raw provider status as
the `error` value), then the routes/legs shape checks of lines 427-434;
`Timeout`, transport errors and JSON failures return `None`. -/
def get_google_directions (net : Net) (origin destination api_key : String) :
    DirReturn × List Call :=
  let trace := [Call.directions origin destination]
  match net.directions origin destination api_key with
  | .timeout => (.nothing, trace)
  | .httpError => (.nothing, trace)
  | .badJson => (.nothing, trace)
  | .ok data =>
    if data.status ≠ some "OK" then
      if data.status = some "ZERO_RESULTS" then
        (.derror data.status "Route not available", trace)
      else if data.status = some "NOT_FOUND" then
        (.derror data.status "Location not found, please try again.", trace)
      else if data.status = some "REQUEST_DENIED" then
        (.derror data.status "Navigation service unavailable", trace)
      else
        (.derror data.status "Route not available", trace)
    else
      match data.routes.getD [] with
      | [] => (.nothing, trace)
      | route :: _ =>
        if (route.legs.getD []).isEmpty then (.nothing, trace)
        else (.payload data, trace)

/-- An HTTP-level response of the `/api/directions` handler: a failure
with status code and `message`, or the 200 navigation payload. -/
inductive HResp where
  | failure (code : Nat) (message : String)
  | success (route : RouteOut)
deriving DecidableEq

/-- The tail of the handler from line 163 on: fetch directions, map
failures to 404 responses with the dict's message, parse, and answer. -/
def finishDirections (net : Net) (origin dest_coords destination api_key : String)
    (acc : List Call) : HResp × List Call :=
  let (dres, c3) := get_google_directions net origin dest_coords api_key
  match dres with
  | .nothing => (.failure 404 "Route not available", acc ++ c3)
  | .derror _ msg => (.failure 404 msg, acc ++ c3)
  | .payload data =>
    match parse_google_directions data destination with
    | .error _ => (.failure 500 "Failed to parse navigation data", acc ++ c3)
    | .ok nav => (.success nav, acc ++ c3)

/-- The `/api/directions` handler `get_directions` (src/app.py:107-186).
The request body is `none` when the JSON body is missing or lacks
`origin`/`destination` (line 113); the API key is the environment value.
The `if 'error' in geocoded_coords` check of lines 157-158 is dead code —
an error dict always enters the Places fallback at line 148, which either
replaces it or returns at line 155 — and therefore has no branch here.
The outer `except` clauses of lines 178-186 are unreachable for the
modelled operations because each helper catches its exceptions
internally. -/
def get_directions (net : Net) (api_key : Option String)
    (body : Option (String × String)) : HResp × List Call :=
  match body with
  | none => (.failure 400 "Missing origin or destination", [])
  | some (origin, destination) =>
    match api_key with
    | none => (.failure 500 "Navigation service not configured", [])
    | some key =>
      if !matchesCoordPattern origin then
        (.failure 400 "Invalid origin coordinates format", [])
      else
        match parseLatLng origin with
        | none => (.failure 400 "Invalid origin coordinates", [])
        | some (origin_lat, origin_lng) =>
          if ¬(-90 ≤ origin_lat ∧ origin_lat ≤ 90) ∨ ¬(-180 ≤ origin_lng ∧ origin_lng ≤ 180) then
            (.failure 400 "Origin coordinates out of range", [])
          else
            if matchesCoordPattern destination then
              finishDirections net origin destination destination key []
            else
              let (g, c1) := geocode_address net destination key
              match g with
              | .found lat lng =>
                finishDirections net origin (pyFloatStr lat ++ "," ++ pyFloatStr lng)
                  destination key c1
              | _ =>
                let (p, c2) := find_nearby_place net destination origin key
                match p with
                | some (lat, lng, _name) =>
                  finishDirections net origin (pyFloatStr lat ++ "," ++ pyFloatStr lng)
                    destination key (c1 ++ c2)
                | none =>
                  (.failure 404 ("Could not find \"" ++ destination
                    ++ "\" near your location. Please try a more specific address."), c1 ++ c2)

def netGeoFound : Net :=
  { geocode := fun _ _ =>
      .ok { status := some "OK", results := some [{ location := some (mkRat 129 10, mkRat 776 10) }] }
    places := fun _ _ _ _ => .timeout
    directions := fun _ _ _ => .timeout }

example : matchesCoordPattern "12.9,77.6" = true := by decide
example : matchesCoordPattern "library" = false := by decide
example : matchesCoordPattern "1,2,3" = false := by decide
example : parseLatLng "12.9,-77.6" = some (mkRat 129 10, -(mkRat 776 10)) := by decide
example : pyFloatStr (mkRat 129 10) = "12.9" := by decide
example : pyFloatStr (10 : Rat) = "10.0" := by decide

theorem get_google_directions_trace (net : Net) (o d k : String) :
    (get_google_directions net o d k).2 = [Call.directions o d] := by
  unfold get_google_directions
  cases net.directions o d k with
  | ok data =>
    dsimp only
    split
    · split_ifs <;> rfl
    · cases data.routes.getD [] with
      | nil => rfl
      | cons route rest =>
        dsimp only
        split <;> rfl
  | timeout => rfl
  | httpError => rfl
  | badJson => rfl

theorem finishDirections_trace (net : Net) (o dc dest k : String) (acc : List Call) :
    (finishDirections net o dc dest k acc).2 = acc ++ [Call.directions o dc] := by
  unfold finishDirections
  have h2 := get_google_directions_trace net o dc k
  rcases hg : get_google_directions net o dc k with ⟨d1, d2⟩
  rw [hg] at h2
  dsimp only at h2
  subst h2
  cases d1 with
  | nothing => rfl
  | derror e m => rfl
  | payload data =>
    dsimp only
    split <;> rfl

theorem geocode_address_trace (net : Net) (address api_key : String) :
    (geocode_address net address api_key).2 = [Call.geocode (enhance_search_terms address)] := by
  unfold geocode_address
  dsimp only
  split
  · rfl
  · rfl
  · rfl
  · split
    · split_ifs <;> rfl
    · split
      · rfl
      · split <;> rfl

def netTimeout : Net :=
  { geocode := fun _ _ => .timeout
    places := fun _ _ _ _ => .timeout
    directions := fun _ _ _ => .timeout }

/-- C1 counterexample: the destination `91,0` matches the coordinate
pattern with latitude 91 outside `[-90, 90]`, yet the handler does not
answer 400: it forwards the unvalidated coordinates to the directions
endpoint (a network call appears in the trace) and answers with that
call's outcome. -/
theorem destination_out_of_range_not_rejected :
    matchesCoordPattern "91,0" = true
    ∧ parseLatLng "91,0" = some (91, 0)
    ∧ ¬((91 : Rat) ≤ 90)
    ∧ get_directions netTimeout (some "k") (some ("10,10", "91,0"))
        = (HResp.failure 404 "Route not available", [Call.directions "10,10" "91,0"])
    ∧ HResp.failure 404 "Route not available"
        ≠ HResp.failure 400 "Origin coordinates out of range" := by
  refine ⟨by decide, by decide, by decide, by decide, by decide⟩

/-- C1 (amended): an out-of-range ORIGIN coordinate string is rejected
with HTTP 400 (`Origin coordinates out of range`) before any network
call — the trace is empty.  (Destination coordinate strings are forwarded
without any range validation, as the counterexample shows.) -/
theorem origin_out_of_range_rejected (net : Net) (key origin destination : String)
    (olat olng : Rat)
    (hpat : matchesCoordPattern origin = true)
    (hparse : parseLatLng origin = some (olat, olng))
    (hout : ¬(-90 ≤ olat ∧ olat ≤ 90) ∨ ¬(-180 ≤ olng ∧ olng ≤ 180)) :
    get_directions net (some key) (some (origin, destination))
      = (HResp.failure 400 "Origin coordinates out of range", []) := by
  simp only [get_directions, hpat, Bool.not_true, Bool.false_eq_true, if_false, hparse]
  rw [if_pos hout]

theorem origin_out_of_range_rejected_witness :
    get_directions netTimeout (some "k") (some ("95,0", "library"))
      = (HResp.failure 400 "Origin coordinates out of range", []) :=
  origin_out_of_range_rejected netTimeout "k" "95,0" "library" 95 0 (by decide) (by decide)
    (Or.inl (by decide))

def dirStatusNet (st : String) : Net :=
  { geocode := fun _ _ => .timeout
    places := fun _ _ _ _ => .timeout
    directions := fun _ _ _ => .ok { status := some st, error_message := none, routes := none } }

/-- C2 counterexample: a `REQUEST_DENIED` directions status reaches the
caller as HTTP 404 (not 500), and an unlisted status such as
`OVER_QUERY_LIMIT` is kept as the raw provider string in the error
dict. -/
theorem directions_error_passthrough_and_404 :
    get_directions (dirStatusNet "REQUEST_DENIED") (some "k") (some ("10,10", "20,20"))
      = (HResp.failure 404 "Navigation service unavailable",
         [Call.directions "10,10" "20,20"])
    ∧ (get_google_directions (dirStatusNet "OVER_QUERY_LIMIT") "10,10" "20,20" "k").1
      = DirReturn.derror (some "OVER_QUERY_LIMIT") "Route not available"
    ∧ HResp.failure 404 "Navigation service unavailable"
      ≠ HResp.failure 500 "Navigation service unavailable" := by
  refine ⟨by decide, by decide, by decide⟩

/-- C2 (amended): a non-`OK` directions status is mapped to an error dict
— `ZERO_RESULTS` ↦ `Route not available`, `NOT_FOUND` ↦ `Location not
found, please try again.`, `REQUEST_DENIED` ↦ `Navigation service
unavailable`, and any other status is passed through raw as the error tag
with message `Route not available` — and the handler surfaces every such
error dict as HTTP 404 with the dict's message (never 500). -/
theorem directions_status_mapping :
    (∀ (net : Net) (o d k : String) (data : GDirections) (st : String),
      net.directions o d k = NetResult.ok data → data.status = some st → st ≠ "OK" →
      get_google_directions net o d k
        = (DirReturn.derror (some st)
            (if st = "ZERO_RESULTS" then "Route not available"
             else if st = "NOT_FOUND" then "Location not found, please try again."
             else if st = "REQUEST_DENIED" then "Navigation service unavailable"
             else "Route not available"),
           [Call.directions o d]))
    ∧ (∀ (net : Net) (key origin destination : String) (olat olng : Rat)
        (e : Option String) (msg : String),
        matchesCoordPattern origin = true →
        parseLatLng origin = some (olat, olng) →
        ((-90 ≤ olat ∧ olat ≤ 90) ∧ (-180 ≤ olng ∧ olng ≤ 180)) →
        matchesCoordPattern destination = true →
        (get_google_directions net origin destination key).1 = DirReturn.derror e msg →
        (get_directions net (some key) (some (origin, destination))).1
          = HResp.failure 404 msg) := by
  constructor
  · intro net o d k data st hnet hst hok
    unfold get_google_directions
    rw [hnet]
    dsimp only
    rw [hst]
    rw [if_pos (by simpa using hok)]
    simp only [Option.some.injEq]
    split_ifs <;> rfl
  · intro net key origin destination olat olng e msg hpat hparse hrange hdest hderr
    simp only [get_directions, hpat, Bool.not_true, Bool.false_eq_true, if_false, hparse]
    rw [if_neg (by simp [hrange.1, hrange.2]), if_pos hdest]
    unfold finishDirections
    rcases hg : get_google_directions net origin destination key with ⟨d1, d2⟩
    rw [hg] at hderr
    dsimp only at hderr
    subst hderr
    rfl

def netZeroResults : Net :=
  { geocode := fun _ _ => .timeout
    places := fun _ _ _ _ => .timeout
    directions := fun _ _ _ =>
      .ok { status := some "ZERO_RESULTS", error_message := none, routes := none } }

theorem directions_status_mapping_witness :
    get_google_directions netZeroResults "10,10" "20,20" "k"
      = (DirReturn.derror (some "ZERO_RESULTS")
          (if "ZERO_RESULTS" = "ZERO_RESULTS" then "Route not available"
           else if "ZERO_RESULTS" = "NOT_FOUND" then "Location not found, please try again."
           else if "ZERO_RESULTS" = "REQUEST_DENIED" then "Navigation service unavailable"
           else "Route not available"),
         [Call.directions "10,10" "20,20"])
    ∧ (get_directions netZeroResults (some "k") (some ("10,10", "20,20"))).1
      = HResp.failure 404 "Route not available" :=
  ⟨directions_status_mapping.1 netZeroResults "10,10" "20,20" "k" _ "ZERO_RESULTS" rfl rfl
      (by decide),
   directions_status_mapping.2 netZeroResults "k" "10,10" "20,20" 10 10
      (some "ZERO_RESULTS") "Route not available" (by decide) (by decide)
      ⟨⟨by decide, by decide⟩, ⟨by decide, by decide⟩⟩ (by decide) (by decide)⟩

/-- C3 counterexample: with every network call timing out, resolving the
text destination `library` produces the generic 404 not-found answer —
the geocode and nearby-search timeouts were swallowed and reported as
NotFound, not as any timeout-specific result. -/
theorem resolution_timeout_answered_as_not_found :
    get_directions netTimeout (some "k") (some ("10,10", "library"))
      = (HResp.failure 404
          ("Could not find \"library\" near your location. Please try a more specific address."),
         [Call.geocode "library near me", Call.places (10, 10) 5000 "library"]) := by
  decide

/-- C3 (amended): a timeout of the geocoding request is caught inside
`geocode_address`, which returns `None`; when the nearby-place search
also times out, the handler reports the resolution failure as the 404
`Could not find ...` response — i.e. resolution timeouts are surfaced to
the caller as NotFound, with no timeout-specific result. -/
theorem resolution_timeout_is_not_found :
    (∀ (net : Net) (address api_key : String),
      net.geocode (enhance_search_terms address) api_key = NetResult.timeout →
      geocode_address net address api_key
        = (GeoReturn.nothing, [Call.geocode (enhance_search_terms address)]))
    ∧ (∀ (net : Net) (key origin destination : String) (olat olng : Rat),
        matchesCoordPattern origin = true →
        parseLatLng origin = some (olat, olng) →
        ((-90 ≤ olat ∧ olat ≤ 90) ∧ (-180 ≤ olng ∧ olng ≤ 180)) →
        matchesCoordPattern destination = false →
        net.geocode (enhance_search_terms destination) key = NetResult.timeout →
        net.places (olat, olng) 5000 (searchTypeOf destination) key = NetResult.timeout →
        get_directions net (some key) (some (origin, destination))
          = (HResp.failure 404 ("Could not find \"" ++ destination
              ++ "\" near your location. Please try a more specific address."),
             [Call.geocode (enhance_search_terms destination),
              Call.places (olat, olng) 5000 (searchTypeOf destination)])) := by
  constructor
  · intro net address api_key hgeo
    simp only [geocode_address, hgeo]
  · intro net key origin destination olat olng hpat hparse hrange hdest hgeo hplaces
    simp only [get_directions, hpat, Bool.not_true, Bool.false_eq_true, if_false, hparse]
    rw [if_neg (by simp [hrange.1, hrange.2]), if_neg (by simp [hdest])]
    simp only [geocode_address, hgeo]
    simp only [find_nearby_place, hparse, hplaces]
    rfl

theorem resolution_timeout_is_not_found_witness :
    geocode_address netTimeout "hospital" "k"
      = (GeoReturn.nothing, [Call.geocode (enhance_search_terms "hospital")])
    ∧ get_directions netTimeout (some "k") (some ("10,10", "hospital"))
      = (HResp.failure 404 ("Could not find \"" ++ "hospital"
          ++ "\" near your location. Please try a more specific address."),
         [Call.geocode (enhance_search_terms "hospital"),
          Call.places (10, 10) 5000 (searchTypeOf "hospital")]) :=
  ⟨resolution_timeout_is_not_found.1 netTimeout "hospital" "k" rfl,
   resolution_timeout_is_not_found.2 netTimeout "k" "10,10" "hospital" 10 10
      (by decide) (by decide) ⟨⟨by decide, by decide⟩, ⟨by decide, by decide⟩⟩
      (by decide) rfl rfl⟩

/-- C5 counterexample: for the generic destination `pharmacy` the trace
holds exactly one geocode call, and it queries the already-enhanced text
`pharmacy near me`; the literal text `pharmacy` is never geocoded, so
there is no literal-first attempt followed by a rewrite-and-retry. -/
theorem literal_geocode_never_attempted :
    (get_directions netTimeout (some "k") (some ("10,10", "pharmacy"))).2
      = [Call.geocode "pharmacy near me", Call.places (10, 10) 5000 "pharmacy"]
    ∧ Call.geocode "pharmacy"
        ∉ (get_directions netTimeout (some "k") (some ("10,10", "pharmacy"))).2 := by
  refine ⟨by decide, by decide⟩

/-- C5 (amended): the resolver performs exactly ONE geocode attempt, whose
query is `enhance_search_terms destination` (generic terms are rewritten
to `<term> near me` before the only geocode call; non-generic text is
geocoded literally, once); the origin-anchored nearby-place search runs
only when that single attempt fails — when the geocode succeeds, the
trace goes straight from the geocode call to the directions call. -/
theorem geocode_single_enhanced_attempt :
    (∀ (net : Net) (address api_key : String),
      (geocode_address net address api_key).2 = [Call.geocode (enhance_search_terms address)])
    ∧ (∀ (net : Net) (key origin destination : String) (olat olng lat lng : Rat),
        matchesCoordPattern origin = true →
        parseLatLng origin = some (olat, olng) →
        ((-90 ≤ olat ∧ olat ≤ 90) ∧ (-180 ≤ olng ∧ olng ≤ 180)) →
        matchesCoordPattern destination = false →
        (geocode_address net destination key).1 = GeoReturn.found lat lng →
        (get_directions net (some key) (some (origin, destination))).2
          = [Call.geocode (enhance_search_terms destination),
             Call.directions origin (pyFloatStr lat ++ "," ++ pyFloatStr lng)]) := by
  constructor
  · exact geocode_address_trace
  · intro net key origin destination olat olng lat lng hpat hparse hrange hdest hfound
    simp only [get_directions, hpat, Bool.not_true, Bool.false_eq_true, if_false, hparse]
    rw [if_neg (by simp [hrange.1, hrange.2]), if_neg (by simp [hdest])]
    have htr := geocode_address_trace net destination key
    rcases hg : geocode_address net destination key with ⟨g1, g2⟩
    rw [hg] at hfound htr
    dsimp only at hfound htr
    subst hfound
    subst htr
    rw [finishDirections_trace]
    rfl

example : enhance_search_terms "library" = "library near me" := by decide
example : enhance_search_terms "Parks " = "park near me" := by decide
example : enhance_search_terms "libraries" = "libraries" := by decide
example : enhance_search_terms "central library" = "central library" := by decide
example : clean_instruction_text "Head toward Main" = "Head towards Main" := by decide
example : cleanInstruction "Turn <b>left</b> toward&nbsp;Main St" = "Turn left towards Main St" := by decide

theorem geocode_single_enhanced_attempt_witness :
    (geocode_address netGeoFound "park" "k").2 = [Call.geocode (enhance_search_terms "park")]
    ∧ (get_directions netGeoFound (some "k") (some ("10,10", "park"))).2
      = [Call.geocode (enhance_search_terms "park"),
         Call.directions "10,10" (pyFloatStr (mkRat 129 10) ++ "," ++ pyFloatStr (mkRat 776 10))] :=
  ⟨geocode_single_enhanced_attempt.1 netGeoFound "park" "k",
   geocode_single_enhanced_attempt.2 netGeoFound "k" "10,10" "park" 10 10
     (mkRat 129 10) (mkRat 776 10) (by decide) (by decide)
     ⟨⟨by decide, by decide⟩, ⟨by decide, by decide⟩⟩ (by decide) (by decide)⟩

